import Mathlib

/-!
Verification development for the unity_unpacker_lib repository.

The Rust library unpacks a Unity `.unitypackage` archive: a staging
directory holds one subdirectory per GUID, each with members `asset`,
`asset.meta` and `pathname`; the library builds one record per entry
(`UnityAssetFile::from`), places assets and renamed metadata into a
destination tree (`UnityAssetFile::copy_asset`) and accumulates records
in a map (`UnityPackage::copy_files_to_target`).

The embedding below models:
  - paths as raw strings, with `pathPush`, `parent`, `fileName` and
    `fileStem` following the semantics of Rust std `Path` operations on
    Unix-style paths (components: empty segments and non-leading `.`
    segments are skipped; `PathBuf::from(string)` keeps the string
    verbatim, with no normalization);
  - the filesystem as an explicit state `FS` (text files, existing
    directories, a set of paths on which directory creation fails, and
    directory listings); `std::env::current_dir()` as an
    `Option String` argument (`none` = cannot be determined);
  - each Rust function as a pure Lean function on these states, keeping
    the source's control flow and error kinds.  The diagnostic payload
    (`ErrorInformation`: message text, source file, line number) is not
    modelled; claims only distinguish kinds.  Strings are assumed valid
    UTF-8, so the Rust branches that fail on non-UTF-8 `OsString`
    conversion cannot fire and are not modelled.
-/

/-! ## Path model (Unix-style raw strings, Rust std Path semantics) -/

/-- Split a character list on the separator. Yields raw segments,
including empty ones (as Rust component parsing sees them before
normalization). -/
def splitSegsAux : List Char → List Char → List String
  | [], acc => [String.mk acc.reverse]
  | c :: cs, acc =>
    if c = '/' then String.mk acc.reverse :: splitSegsAux cs []
    else splitSegsAux cs (c :: acc)

/-- Raw slash-separated segments of a path string. -/
def rawSegs (p : String) : List String := splitSegsAux p.data []

/-- Join segments with the separator (inverse of splitting on clean input). -/
def joinSegs : List String → String
  | [] => ""
  | [s] => s
  | s :: rest => s ++ "/" ++ joinSegs rest

/-- Rust `Path::is_absolute` on Unix: starts with a separator. -/
def isAbsolute (p : String) : Bool :=
  match p.data with
  | [] => false
  | c :: _ => c == '/'

/-- Whether the string ends with a separator. -/
def endsSlash (p : String) : Bool :=
  match p.data.getLast? with
  | some c => c == '/'
  | none => false

/-- Rust `PathBuf::push`: an absolute argument replaces the path;
otherwise a separator is inserted when needed and the argument appended. -/
def pathPush (base child : String) : String :=
  if isAbsolute child then child
  else if base == "" then child
  else if endsSlash base then base ++ child
  else base ++ "/" ++ child

/-- A raw segment that survives Rust component normalization: nonempty,
and `.` only as the leading component of a relative path (for an
absolute path the raw segment at index 0 is empty, so `i == 0` can only
hold for relative paths). -/
def realSeg (i : Nat) (s : String) : Bool :=
  s != "" && (s != "." || i == 0)

/-- The last component of a path, with its raw-segment index. -/
def lastReal (p : String) : Option (Nat × String) :=
  ((rawSegs p).enum.filter (fun iseg => realSeg iseg.1 iseg.2)).getLast?

/-- Rust `Path::file_name`: the last component when it is a normal
segment; `none` for a root, an empty path, or a path ending in `..`
(or consisting of the lone component `.`). -/
def fileName (p : String) : Option String :=
  match lastReal p with
  | none => none
  | some (_, s) => if s == ".." || s == "." then none else some s

/-- Drop trailing empty segments (the separators Rust trims when slicing
the parent path). -/
def dropTrailingEmpties (l : List String) : List String :=
  (l.reverse.dropWhile (fun s => s == "")).reverse

/-- Rust `Path::parent`: the string slice before the final component,
trailing separators trimmed; `none` for an empty path or a bare root.
(Runs of leading separators are treated as one root.) -/
def parent (p : String) : Option String :=
  if p == "" then none
  else
    match lastReal p with
    | none => none
    | some (i, _) =>
      let pre := dropTrailingEmpties ((rawSegs p).take i)
      if pre == [] then (if isAbsolute p then some "/" else some "")
      else some (joinSegs pre)

/-- The characters before the last `.` of a name, when a `.` occurs. -/
def beforeLastDot : List Char → Option (List Char)
  | [] => none
  | c :: cs =>
    match beforeLastDot cs with
    | some r => some (c :: r)
    | none => if c == '.' then some [] else none

/-- Rust `Path::file_stem`: the file name up to its last `.`; the whole
name when there is no `.` or the only `.` is leading. -/
def fileStem (p : String) : Option String :=
  match fileName p with
  | none => none
  | some n =>
    match beforeLastDot n.data with
    | none => some n
    | some pre => if pre == [] then some n else some (String.mk pre)

/-- Substring test (Rust `str::contains` with a literal pattern). -/
def containsSub : List Char → List Char → Bool
  | [], pat => pat.isEmpty
  | s@(_ :: rest), pat => pat.isPrefixOf s || containsSub rest pat

/-! ## Filesystem state -/

/-- Explicit filesystem state threaded through the embedded functions.
`files` maps a path to readable text content, `dirs` lists existing
directories, `createFails` lists paths on which directory creation
fails (permissions and the like), `dirList` maps a directory to the
paths `std::fs::read_dir` yields for it. -/
structure FS where
  files : List (String × String)
  dirs : List String
  createFails : List String
  dirList : List (String × List String)
deriving DecidableEq

/-- `std::fs::read_to_string`: succeeds exactly on recorded text files. -/
def FS.readFile (fs : FS) (p : String) : Option String :=
  (fs.files.find? (fun kv => kv.1 == p)).map (fun kv => kv.2)

/-- `std::path::Path::exists`. -/
def FS.pathExists (fs : FS) (p : String) : Bool :=
  fs.files.any (fun kv => kv.1 == p) || fs.dirs.contains p

/-- The directories `std::fs::create_dir_all p` brings into existence:
every cumulative segment prefix of `p`, including `p` itself. -/
def cumulativeJoins : List String → List String
  | [] => []
  | s :: rest => s :: (cumulativeJoins rest).map (fun t => s ++ "/" ++ t)

/-- Directories created by `std::fs::create_dir_all` on a path. -/
def createdDirs (p : String) : List String :=
  let ss := (rawSegs p).filter (fun s => s != "")
  if isAbsolute p then (cumulativeJoins ss).map (fun t => "/" ++ t)
  else cumulativeJoins ss

/-- `std::fs::create_dir_all`: fails on the recorded failure paths,
otherwise records the directory and all its missing ancestors. -/
def FS.createDirAll (fs : FS) (p : String) : Except Unit FS :=
  if fs.createFails.contains p then .error ()
  else .ok { fs with dirs := createdDirs p ++ fs.dirs }

/-- `std::fs::rename`: moves a file's content from `src` to `dst`;
fails when `src` is not a readable file. -/
def FS.rename (fs : FS) (src dst : String) : Except Unit FS :=
  match fs.readFile src with
  | none => .error ()
  | some c =>
    .ok { fs with files := (dst, c) :: fs.files.filter (fun kv => kv.1 != src) }

/-- `std::fs::read_dir`: the recorded listing of a directory. -/
def FS.readDir (fs : FS) (p : String) : Option (List String) :=
  (fs.dirList.find? (fun kv => kv.1 == p)).map (fun kv => kv.2)

/-! ## Error type (unpacker_error.rs, kinds only) -/

/-- The variants of `UnityPackageReaderError` (unpacker_error.rs,
lines 31-42).  The `ErrorInformation` payload is not modelled. -/
inductive UnityPackageReaderError where
  | PackageNotFound
  | CorruptPackage
  | TmpDirectoryCouldNotBeCreated
  | TargetDirectoryCouldNotBeCreated
  | WorkingDirectoryError
  | PathError
  | NotAPackageFile
  | CouldReadMetaFile
  | CouldNotDeleteTmp
deriving DecidableEq

/-! ## UnityAssetFile (unity_asset_file.rs) -/

/-- The record for one staging entry (unity_asset_file.rs, lines 7-20). -/
structure UnityAssetFile where
  guid : String
  asset : String
  target : String
  meta : String
  is_folder : Bool
deriving DecidableEq

/-- Getter `get_guid` (line 23). -/
def UnityAssetFile.get_guid (a : UnityAssetFile) : String := a.guid

/-- Getter `get_absolute_asset_path` (line 26). -/
def UnityAssetFile.get_absolute_asset_path (a : UnityAssetFile) : String := a.asset

/-- Getter `get_relative_asset_path` (line 29). -/
def UnityAssetFile.get_relative_asset_path (a : UnityAssetFile) : String := a.target

/-- Getter `get_absolute_meta_file_path` (line 32). -/
def UnityAssetFile.get_absolute_meta_file_path (a : UnityAssetFile) : String := a.meta

/-- `UnityAssetFile::get_relative_path` (lines 99-110): read the file as
text; its entire content, wrapped verbatim by `PathBuf::from` (which
performs no normalization), is the result. -/
def UnityAssetFile.get_relative_path (fs : FS) (file : String) :
    Except UnityPackageReaderError String :=
  match fs.readFile file with
  | none => .error .CorruptPackage
  | some content => .ok content

/-- `UnityAssetFile::get_is_folder` (lines 112-123): read the file as
text and test for the literal substring. -/
def UnityAssetFile.get_is_folder (fs : FS) (file : String) :
    Except UnityPackageReaderError Bool :=
  match fs.readFile file with
  | none => .error .CorruptPackage
  | some content => .ok (containsSub content.data "folderAsset: yes".data)

/-- `UnityAssetFile::from` (lines 39-97; `from` is a Lean keyword, hence
the name `fromPath`): the entry's final path segment is the guid; the
member paths are derived by push; an unreadable `pathname` yields
`CorruptPackage`, an unreadable `asset.meta` yields `CouldReadMetaFile`. -/
def UnityAssetFile.fromPath (fs : FS) (path : String) :
    Except UnityPackageReaderError UnityAssetFile :=
  match fileName path with
  | none => .error .PathError
  | some hash =>
    let asset := pathPush path "asset"
    let pathname := pathPush path "pathname"
    let meta := pathPush path "asset.meta"
    match UnityAssetFile.get_relative_path fs pathname with
    | .error _ => .error .CorruptPackage
    | .ok target =>
      match UnityAssetFile.get_is_folder fs meta with
      | .error _ => .error .CouldReadMetaFile
      | .ok b =>
        .ok { guid := hash, asset := asset, target := target, meta := meta,
              is_folder := b }

/-- Lines 151-160 of `copy_asset`: create the parent directory when it
does not already exist (the error is mapped to
`TargetDirectoryCouldNotBeCreated` at the call site). -/
def ensureParent (fs : FS) (par : String) : Except Unit FS :=
  if fs.pathExists par then .ok fs
  else fs.createDirAll par

/-- `UnityAssetFile::copy_asset` (lines 130-223).  The Rust function
takes `&mut self`; the record component of the result is the record as
left by the call.  Folder records return success immediately; otherwise
the asset is renamed to `target_path` pushed with the relative target,
and the meta file is renamed to the asset's parent directory pushed with
the asset's file name plus the literal `.unitymeta` suffix. -/
def UnityAssetFile.copy_asset (a : UnityAssetFile) (target_path : String)
    (fs : FS) : Except UnityPackageReaderError Unit × UnityAssetFile × FS :=
  if a.is_folder then (.ok (), a, fs)
  else
    let absolute_target := pathPush target_path a.target
    match parent absolute_target with
    | none => (.error .TargetDirectoryCouldNotBeCreated, a, fs)
    | some par =>
      match ensureParent fs par with
      | .error _ => (.error .TargetDirectoryCouldNotBeCreated, a, fs)
      | .ok fs1 =>
        match fs1.rename a.asset absolute_target with
        | .error _ => (.error .CorruptPackage, a, fs1)
        | .ok fs2 =>
          match fileName absolute_target with
          | none => (.error .CorruptPackage, a, fs2)
          | some f =>
            match parent absolute_target with
            | none => (.error .CorruptPackage, a, fs2)
            | some d =>
              match fs2.rename a.meta (pathPush d (f ++ ".unitymeta")) with
              | .error _ => (.error .CorruptPackage, a, fs2)
              | .ok fs3 => (.ok (), a, fs3)

/-! ## UnityPackage (unity_package.rs) -/

/-- The package catalog (unity_package.rs, lines 15-24).  The Rust
`HashMap<String, UnityAssetFile>` is modelled as an association list
where insertion replaces any existing binding for the key. -/
structure UnityPackage where
  path : String
  target_path : Option String
  temp_directory : Option String
  files : List (String × UnityAssetFile)
deriving DecidableEq

/-- `HashMap::insert` on the association-list model (replaces an
existing binding for the key). -/
def hmInsert (m : List (String × UnityAssetFile)) (k : String)
    (v : UnityAssetFile) : List (String × UnityAssetFile) :=
  (k, v) :: m.filter (fun kv => kv.1 != k)

/-- `HashMap::get` on the association-list model. -/
def hmGet (m : List (String × UnityAssetFile)) (k : String) :
    Option UnityAssetFile :=
  (m.find? (fun kv => kv.1 == k)).map (fun kv => kv.2)

/-- `UnityPackage::new` (lines 30-64): keep the given name verbatim when
a filesystem entry exists at it; otherwise prepend the working
directory, failing with `WorkingDirectoryError` when it cannot be
determined. -/
def UnityPackage.new (fs : FS) (cwd : Option String) (file_name : String)
    (target_path temp_directory : Option String) :
    Except UnityPackageReaderError UnityPackage :=
  if fs.pathExists file_name then
    .ok { path := file_name, target_path := target_path,
          temp_directory := temp_directory, files := [] }
  else
    match cwd with
    | some wd =>
      .ok { path := pathPush wd file_name, target_path := target_path,
            temp_directory := temp_directory, files := [] }
    | none => .error .WorkingDirectoryError

/-- `UnityPackage::get_file` (lines 70-72). -/
def UnityPackage.get_file (p : UnityPackage) (guid : String) :
    Option UnityAssetFile :=
  hmGet p.files guid

/-- `UnityPackage::get_tmp_dir` (lines 75-89). -/
def UnityPackage.get_tmp_dir (p : UnityPackage) (cwd : Option String) :
    Except UnityPackageReaderError String :=
  match p.temp_directory with
  | some s => .ok s
  | none =>
    match cwd with
    | some wd => .ok (pathPush wd "tmp")
    | none => .error .WorkingDirectoryError

/-- `UnityPackage::get_package_file_name` (lines 92-109): the package
path's file stem. -/
def UnityPackage.get_package_file_name (p : UnityPackage) :
    Except UnityPackageReaderError String :=
  match fileStem p.path with
  | some s => .ok s
  | none => .error .NotAPackageFile

/-- `UnityPackage::get_target_dir` (lines 115-134). -/
def UnityPackage.get_target_dir (p : UnityPackage) (cwd : Option String) :
    Except UnityPackageReaderError String :=
  match p.target_path with
  | some s => .ok s
  | none =>
    match p.get_package_file_name with
    | .ok s =>
      match cwd with
      | some wd => .ok (pathPush wd s)
      | none => .error .WorkingDirectoryError
    | .error _ => .error .NotAPackageFile

/-- The entry loop of `UnityPackage::copy_files_to_target`
(lines 223-249): for each staging entry build the record, place it, and
insert it into the table; the first failure aborts with that error,
keeping the table as inserted so far. -/
def copyLoop (target : String) :
    List String → List (String × UnityAssetFile) → FS →
    Except UnityPackageReaderError Unit × List (String × UnityAssetFile) × FS
  | [], tbl, fs => (.ok (), tbl, fs)
  | e :: rest, tbl, fs =>
    match UnityAssetFile.fromPath fs e with
    | .error err => (.error err, tbl, fs)
    | .ok a =>
      match a.copy_asset target fs with
      | (.error err, _, fs2) => (.error err, tbl, fs2)
      | (.ok _, a2, fs2) => copyLoop target rest (hmInsert tbl a2.guid a2) fs2

/-- `UnityPackage::copy_files_to_target` (lines 200-252): resolve the
target and staging directories, list the staging directory (a listing
failure is reported as `TmpDirectoryCouldNotBeCreated`), then run the
entry loop, the table updates landing in the package's `files`. -/
def UnityPackage.copy_files_to_target (p : UnityPackage)
    (cwd : Option String) (fs : FS) :
    Except UnityPackageReaderError Unit × UnityPackage × FS :=
  match p.get_target_dir cwd with
  | .error e => (.error e, p, fs)
  | .ok target =>
    match p.get_tmp_dir cwd with
    | .error e => (.error e, p, fs)
    | .ok origin =>
      match fs.readDir origin with
      | none => (.error .TmpDirectoryCouldNotBeCreated, p, fs)
      | some entries =>
        let r := copyLoop target entries p.files fs
        (r.1, { p with files := r.2.1 }, r.2.2)
theorem copy_asset_keeps_record (a : UnityAssetFile) (tp : String) (fs : FS) :
    (a.copy_asset tp fs).2.1 = a := by
  unfold UnityAssetFile.copy_asset
  dsimp only
  repeat' split
  all_goals rfl

theorem rename_ok_dirs (fs : FS) (src dst : String) (g : FS)
    (h : fs.rename src dst = .ok g) : g.dirs = fs.dirs := by
  unfold FS.rename at h
  split at h
  · exact absurd h (by simp)
  · cases h; rfl

theorem rename_ok_readFile_dst (fs : FS) (src dst : String) (g : FS)
    (h : fs.rename src dst = .ok g) : (g.readFile dst).isSome = true := by
  unfold FS.rename at h
  split at h
  · exact absurd h (by simp)
  · cases h; simp [FS.readFile, List.find?]

theorem hmGet_hmInsert_self (m : List (String × UnityAssetFile))
    (k : String) (v : UnityAssetFile) : hmGet (hmInsert m k v) k = some v := by
  simp [hmGet, hmInsert, List.find?]
/-! ## Concrete fixtures used by witnesses and the counterexample -/

/-- A folder-marker record (fixture). -/
def exFolderRecord : UnityAssetFile :=
  { guid := "g0", asset := "tmp/g0/asset", target := "Assets/Dir",
    meta := "tmp/g0/asset.meta", is_folder := true }

/-- An empty filesystem (fixture). -/
def exEmptyFS : FS := { files := [], dirs := [], createFails := [], dirList := [] }

/-- A staging filesystem: entry g2 misses its pathname member, entry g3
has a pathname but no asset.meta member (fixture). -/
def exSidecarFS : FS :=
  { files := [("tmp/g3/pathname", "b.txt")], dirs := [], createFails := [],
    dirList := [] }

/-- A staging filesystem with one complete entry g1 (fixture). -/
def exGoodFS : FS :=
  { files := [("tmp/g1/pathname", "Assets/Textures/Ground/IMGP1287.jpg"),
              ("tmp/g1/asset.meta", "fileFormatVersion: 2"),
              ("tmp/g1/asset", "payload")],
    dirs := [], createFails := [], dirList := [("tmp", ["tmp/g1"])] }

/-- The record built from entry g1 of the complete fixture. -/
def exRecordG1 : UnityAssetFile :=
  { guid := "g1", asset := "tmp/g1/asset",
    target := "Assets/Textures/Ground/IMGP1287.jpg",
    meta := "tmp/g1/asset.meta", is_folder := false }

/-! ## Claim theorems -/

/-- C4: for a record whose folder flag is set, copy_asset returns success
immediately, leaving the record and the filesystem state untouched. -/
theorem claim4_folder_marker_noop (a : UnityAssetFile) (tp : String) (fs : FS)
    (h : a.is_folder = true) : a.copy_asset tp fs = (.ok (), a, fs) := by
  unfold UnityAssetFile.copy_asset
  simp [h]

theorem claim4_witness :
    exFolderRecord.copy_asset "tgt" exEmptyFS = (.ok (), exFolderRecord, exEmptyFS) :=
  claim4_folder_marker_noop exFolderRecord "tgt" exEmptyFS rfl

/-- C9: copy_asset never mutates the record it is called on: every getter
observes the same value on the record component of the result as on the
input, whether the call succeeds or fails. -/
theorem claim9_copy_asset_preserves_record (a : UnityAssetFile) (tp : String)
    (fs : FS) :
    ((a.copy_asset tp fs).2.1).get_guid = a.get_guid ∧
    ((a.copy_asset tp fs).2.1).get_absolute_asset_path = a.get_absolute_asset_path ∧
    ((a.copy_asset tp fs).2.1).get_relative_asset_path = a.get_relative_asset_path ∧
    ((a.copy_asset tp fs).2.1).get_absolute_meta_file_path = a.get_absolute_meta_file_path ∧
    ((a.copy_asset tp fs).2.1).is_folder = a.is_folder := by
  rw [copy_asset_keeps_record]
  exact ⟨rfl, rfl, rfl, rfl, rfl⟩

/-- C3: record construction distinguishes the two sidecar failures: an
unreadable pathname member yields CorruptPackage, while a readable
pathname but unreadable asset.meta member yields CouldReadMetaFile. -/
theorem claim3_distinct_sidecar_errors (fs : FS) (path h : String)
    (hn : fileName path = some h) :
    (fs.readFile (pathPush path "pathname") = none →
      UnityAssetFile.fromPath fs path = .error .CorruptPackage) ∧
    (∀ c, fs.readFile (pathPush path "pathname") = some c →
      fs.readFile (pathPush path "asset.meta") = none →
      UnityAssetFile.fromPath fs path = .error .CouldReadMetaFile) := by
  constructor
  · intro hp
    simp [UnityAssetFile.fromPath, UnityAssetFile.get_relative_path, hn, hp]
  · intro c hp hm
    simp [UnityAssetFile.fromPath, UnityAssetFile.get_relative_path,
      UnityAssetFile.get_is_folder, hn, hp, hm]

theorem claim3_witness :
    UnityAssetFile.fromPath exSidecarFS "tmp/g2" = .error .CorruptPackage ∧
    UnityAssetFile.fromPath exSidecarFS "tmp/g3" = .error .CouldReadMetaFile :=
  ⟨(claim3_distinct_sidecar_errors exSidecarFS "tmp/g2" "g2" rfl).1 rfl,
   (claim3_distinct_sidecar_errors exSidecarFS "tmp/g3" "g3" rfl).2 "b.txt" rfl rfl⟩

/-- C5: a constructed record's relative target path equals the entire
text content of the pathname sidecar file, unaltered. -/
theorem claim5_target_is_pathname_content (fs : FS) (path : String)
    (a : UnityAssetFile) (c : String)
    (h1 : UnityAssetFile.fromPath fs path = .ok a)
    (h2 : fs.readFile (pathPush path "pathname") = some c) :
    a.get_relative_asset_path = c := by
  unfold UnityAssetFile.fromPath at h1
  split at h1
  · exact absurd h1 (by simp)
  · unfold UnityAssetFile.get_relative_path at h1
    dsimp only at h1
    rw [h2] at h1
    dsimp only at h1
    split at h1
    · exact absurd h1 (by simp)
    · cases h1
      rfl

theorem claim5_witness :
    exRecordG1.get_relative_asset_path = "Assets/Textures/Ground/IMGP1287.jpg" :=
  claim5_target_is_pathname_content exGoodFS "tmp/g1" exRecordG1
    "Assets/Textures/Ground/IMGP1287.jpg" rfl rfl

/-- C10: UnityPackage::new keeps the given file name verbatim when a
filesystem entry exists at it; otherwise it joins the working directory
with the name, failing with WorkingDirectoryError when the working
directory cannot be determined. -/
theorem claim10_new_path_resolution (fs : FS) (cwd : Option String)
    (nm : String) (tp td : Option String) :
    (fs.pathExists nm = true →
      UnityPackage.new fs cwd nm tp td =
        .ok { path := nm, target_path := tp, temp_directory := td, files := [] }) ∧
    (∀ wd, fs.pathExists nm = false → cwd = some wd →
      UnityPackage.new fs cwd nm tp td =
        .ok { path := pathPush wd nm, target_path := tp, temp_directory := td,
              files := [] }) ∧
    (fs.pathExists nm = false → cwd = none →
      UnityPackage.new fs cwd nm tp td = .error .WorkingDirectoryError) := by
  refine ⟨fun h => ?_, fun wd h hc => ?_, fun h hc => ?_⟩ <;>
    subst_eqs <;> simp_all [UnityPackage.new]

/-- C7: with no explicit override, the staging directory resolves to the
working directory joined with tmp and the destination directory to the
working directory joined with the package file stem; a missing working
directory yields WorkingDirectoryError. -/
theorem claim7_default_directories (p : UnityPackage) (wd : String)
    (ht : p.temp_directory = none) (hg : p.target_path = none) :
    (p.get_tmp_dir (some wd) = .ok (pathPush wd "tmp")) ∧
    (p.get_tmp_dir none = .error .WorkingDirectoryError) ∧
    (∀ stem, fileStem p.path = some stem →
      p.get_target_dir (some wd) = .ok (pathPush wd stem)) ∧
    (∀ stem, fileStem p.path = some stem →
      p.get_target_dir none = .error .WorkingDirectoryError) := by
  refine ⟨?_, ?_, fun stem hs => ?_, fun stem hs => ?_⟩
  · simp [UnityPackage.get_tmp_dir, ht]
  · simp [UnityPackage.get_tmp_dir, ht]
  · simp [UnityPackage.get_target_dir, UnityPackage.get_package_file_name, hg, hs]
  · simp [UnityPackage.get_target_dir, UnityPackage.get_package_file_name, hg, hs]
theorem copy_asset_ok_meta (a : UnityAssetFile) (tp : String) (fs : FS)
    (a1 : UnityAssetFile) (fs1 : FS) (hf : a.is_folder = false)
    (h : a.copy_asset tp fs = (.ok (), a1, fs1)) :
    ∃ d f, parent (pathPush tp a.target) = some d ∧
      fileName (pathPush tp a.target) = some f ∧
      (fs1.readFile (pathPush d (f ++ ".unitymeta"))).isSome = true := by
  unfold UnityAssetFile.copy_asset at h
  split at h
  · rename_i hcond
    exact absurd hcond (by simp [hf])
  · dsimp only at h
    split at h
    · exact absurd h (by simp)
    · rename_i par hpar
      split at h
      · exact absurd h (by simp)
      · rename_i fsA heqA
        split at h
        · exact absurd h (by simp)
        · rename_i fsB heqB
          split at h
          · exact absurd h (by simp)
          · rename_i f hfile
            split at h
            · exact absurd h (by simp)
            · rename_i d hpar2
              injection hpar2 with hpd
              subst hpd
              split at h
              · exact absurd h (by simp)
              · rename_i fsC heqC
                injection h with hL hR
                injection hR with hM hN
                subst hN
                exact ⟨par, f, hpar, hfile,
                  rename_ok_readFile_dst _ _ _ _ heqC⟩

/-- C1: for every non-folder record placed successfully, a metadata file
exists at the placed asset's parent directory joined with the asset's
final path segment plus the literal suffix ".unitymeta" (the whole file
name is kept, extension included). -/
theorem claim1_meta_name_suffix_preserving (a : UnityAssetFile) (tp : String)
    (fs : FS) (hf : a.is_folder = false)
    (h : (a.copy_asset tp fs).1 = .ok ()) :
    ∃ d f, parent (pathPush tp a.target) = some d ∧
      fileName (pathPush tp a.target) = some f ∧
      ((((a.copy_asset tp fs).2.2)).readFile
        (pathPush d (f ++ ".unitymeta"))).isSome = true := by
  have e1 : a.copy_asset tp fs =
      ((a.copy_asset tp fs).1, (a.copy_asset tp fs).2.1,
        (a.copy_asset tp fs).2.2) := rfl
  rw [h] at e1
  exact copy_asset_ok_meta a tp fs _ _ hf e1

theorem claim1_witness :
    ∃ d f, parent (pathPush "proj" exRecordG1.target) = some d ∧
      fileName (pathPush "proj" exRecordG1.target) = some f ∧
      ((((exRecordG1.copy_asset "proj" exGoodFS).2.2)).readFile
        (pathPush d (f ++ ".unitymeta"))).isSome = true :=
  claim1_meta_name_suffix_preserving exRecordG1 "proj" exGoodFS rfl rfl
/-- C6: for a non-folder record, copy_asset fails with
TargetDirectoryCouldNotBeCreated when the joined target path has no
parent or when creating the parent fails, leaving the state untouched;
otherwise, when the parent is missing and creation succeeds, the parent
and all its ancestors exist in the resulting state whatever the later
file moves do (they are created before any file is moved). -/
theorem claim6_parent_resolution_and_creation (a : UnityAssetFile)
    (tp : String) (fs : FS) (hf : a.is_folder = false) :
    (parent (pathPush tp a.target) = none →
      a.copy_asset tp fs = (.error .TargetDirectoryCouldNotBeCreated, a, fs)) ∧
    (∀ par, parent (pathPush tp a.target) = some par →
      fs.pathExists par = false → fs.createFails.contains par = true →
      a.copy_asset tp fs = (.error .TargetDirectoryCouldNotBeCreated, a, fs)) ∧
    (∀ par, parent (pathPush tp a.target) = some par →
      fs.pathExists par = false → fs.createFails.contains par = false →
      ∀ d, d ∈ createdDirs par → d ∈ ((a.copy_asset tp fs).2.2).dirs) := by
  refine ⟨fun hp => ?_, fun par hp hex hcf => ?_, fun par hp hex hcf d hd => ?_⟩
  · unfold UnityAssetFile.copy_asset
    simp [hf, hp]
  · have hm : par ∈ fs.createFails := by simpa using hcf
    unfold UnityAssetFile.copy_asset
    simp [hf, hp, ensureParent, hex, FS.createDirAll, hm]
  · have hm : par ∉ fs.createFails := by simpa using hcf
    have hens : ensureParent fs par =
        .ok { fs with dirs := createdDirs par ++ fs.dirs } := by
      simp [ensureParent, hex, FS.createDirAll, hm]
    unfold UnityAssetFile.copy_asset
    split
    · rename_i hcond
      exact absurd hcond (by simp [hf])
    · dsimp only
      rw [hp]
      dsimp only
      rw [hens]
      dsimp only
      split
      · dsimp only
        exact List.mem_append_left _ hd
      · rename_i fsB heqB
        have hdB : fsB.dirs = createdDirs par ++ fs.dirs :=
          rename_ok_dirs _ _ _ _ heqB
        split
        · dsimp only
          rw [hdB]
          exact List.mem_append_left _ hd
        · split
          · dsimp only
            rw [hdB]
            exact List.mem_append_left _ hd
          · rename_i fsC heqC
            dsimp only
            rw [rename_ok_dirs _ _ _ _ heqC, hdB]
            exact List.mem_append_left _ hd

/-- A record whose relative target is a bare root (fixture). -/
def exRootRecord : UnityAssetFile :=
  { guid := "gr", asset := "s/gr/asset", target := "/",
    meta := "s/gr/asset.meta", is_folder := false }

/-- A record with a nested relative target (fixture). -/
def exPngRecord : UnityAssetFile :=
  { guid := "gp", asset := "s/gp/asset", target := "Assets/a.png",
    meta := "s/gp/asset.meta", is_folder := false }

/-- A filesystem on which creating the needed parent directory fails
(fixture). -/
def exDenyFS : FS :=
  { files := [], dirs := [], createFails := ["t2/Assets"], dirList := [] }

theorem claim6_witness :
    exRootRecord.copy_asset "t" exEmptyFS =
      (.error .TargetDirectoryCouldNotBeCreated, exRootRecord, exEmptyFS) ∧
    exPngRecord.copy_asset "t2" exDenyFS =
      (.error .TargetDirectoryCouldNotBeCreated, exPngRecord, exDenyFS) ∧
    "t3/Assets" ∈ ((exPngRecord.copy_asset "t3" exEmptyFS).2.2).dirs :=
  ⟨(claim6_parent_resolution_and_creation exRootRecord "t" exEmptyFS rfl).1 rfl,
   (claim6_parent_resolution_and_creation exPngRecord "t2" exDenyFS rfl).2.1
     "t2/Assets" rfl rfl rfl,
   (claim6_parent_resolution_and_creation exPngRecord "t3" exEmptyFS rfl).2.2
     "t3/Assets" rfl rfl rfl "t3/Assets" (by decide)⟩
theorem copyLoop_append_of_ok (target : String) (es1 es2 : List String)
    (tbl : List (String × UnityAssetFile)) (fs : FS)
    (tbl1 : List (String × UnityAssetFile)) (fs1 : FS)
    (h : copyLoop target es1 tbl fs = (.ok (), tbl1, fs1)) :
    copyLoop target (es1 ++ es2) tbl fs = copyLoop target es2 tbl1 fs1 := by
  induction es1 generalizing tbl fs with
  | nil =>
    injection h with h1 h23
    injection h23 with h2 h3
    subst h2
    subst h3
    rw [List.nil_append]
  | cons e rest ih =>
    rw [List.cons_append]
    rw [copyLoop] at h
    conv_lhs => rw [copyLoop]
    cases hfp : UnityAssetFile.fromPath fs e with
    | error err =>
      rw [hfp] at h
      exact absurd h (by simp)
    | ok a =>
      rw [hfp] at h
      dsimp only at h
      dsimp only
      rcases hres : a.copy_asset target fs with ⟨r, a2, fs2⟩
      rw [hres] at h
      cases r with
      | error err =>
        exact absurd h (by simp)
      | ok u =>
        dsimp only at h
        dsimp only
        exact ih _ _ h

/-- C2 (amended): if constructing or placing a staging entry fails, the
whole extraction call fails with that entry's error and no records from
the failing or later entries are added; the records of entries processed
successfully earlier in the same run, however, remain in the table. -/
theorem claim2_first_failure_aborts (p : UnityPackage) (cwd : Option String)
    (fs : FS) (target origin : String) (es1 : List String) (e : String)
    (es2 : List String) (tbl1 : List (String × UnityAssetFile)) (fs1 : FS)
    (err : UnityPackageReaderError)
    (h1 : p.get_target_dir cwd = .ok target)
    (h2 : p.get_tmp_dir cwd = .ok origin)
    (h3 : fs.readDir origin = some (es1 ++ e :: es2))
    (h4 : copyLoop target es1 p.files fs = (.ok (), tbl1, fs1))
    (h5 : UnityAssetFile.fromPath fs1 e = .error err ∨
      ∃ a, UnityAssetFile.fromPath fs1 e = .ok a ∧
        (a.copy_asset target fs1).1 = .error err) :
    (p.copy_files_to_target cwd fs).1 = .error err ∧
    (p.copy_files_to_target cwd fs).2.1.files = tbl1 := by
  have hstep : (copyLoop target (e :: es2) tbl1 fs1).1 = .error err ∧
      (copyLoop target (e :: es2) tbl1 fs1).2.1 = tbl1 := by
    rcases h5 with h5 | ⟨a, ha, hc⟩
    · rw [copyLoop, h5]
      exact ⟨rfl, rfl⟩
    · have e1 : a.copy_asset target fs1 =
          (.error err, (a.copy_asset target fs1).2.1,
            (a.copy_asset target fs1).2.2) := by
        have e0 : a.copy_asset target fs1 =
            ((a.copy_asset target fs1).1, (a.copy_asset target fs1).2.1,
              (a.copy_asset target fs1).2.2) := rfl
        rw [hc] at e0
        exact e0
      rw [copyLoop, ha]
      dsimp only
      rw [e1]
      exact ⟨rfl, rfl⟩
  unfold UnityPackage.copy_files_to_target
  rw [h1]
  dsimp only
  rw [h2]
  dsimp only
  rw [h3]
  dsimp only
  rw [copyLoop_append_of_ok target es1 (e :: es2) p.files fs tbl1 fs1 h4]
  exact ⟨hstep.1, hstep.2⟩

/-- A package whose extraction hits a corrupt second entry (fixture). -/
def exPartialPkg : UnityPackage :=
  { path := "pkg.unitypackage", target_path := some "tgt",
    temp_directory := some "tmp", files := [] }

/-- A staging filesystem where entry g1 is complete and entry g2 misses
its pathname member (fixture). -/
def exPartialFS : FS :=
  { files := [("tmp/g1/pathname", "a.txt"), ("tmp/g1/asset.meta", "x"),
              ("tmp/g1/asset", "payload"), ("tmp/g2/asset.meta", "x")],
    dirs := ["tgt"], createFails := [],
    dirList := [("tmp", ["tmp/g1", "tmp/g2"])] }

/-- The record built and placed for entry g1 of the partial fixture. -/
def exPartialRec : UnityAssetFile :=
  { guid := "g1", asset := "tmp/g1/asset", target := "a.txt",
    meta := "tmp/g1/asset.meta", is_folder := false }

/-- The filesystem state after entry g1 of the partial fixture is placed. -/
def exPartialFS1 : FS :=
  { files := [("tgt/a.txt.unitymeta", "x"), ("tgt/a.txt", "payload"),
              ("tmp/g1/pathname", "a.txt"), ("tmp/g2/asset.meta", "x")],
    dirs := ["tgt"], createFails := [],
    dirList := [("tmp", ["tmp/g1", "tmp/g2"])] }

/-- C2 as stated is false on the code: the extraction call fails on the
corrupt second entry, yet the record of the first, already processed
entry remains in the catalog, so the table does not hold zero records. -/
theorem claim2_counterexample :
    (exPartialPkg.copy_files_to_target none exPartialFS).1 =
      .error .CorruptPackage ∧
    ((exPartialPkg.copy_files_to_target none exPartialFS).2.1.files).length
      = 1 :=
  ⟨rfl, rfl⟩

theorem claim2_witness :
    (exPartialPkg.copy_files_to_target none exPartialFS).1 =
      .error .CorruptPackage ∧
    (exPartialPkg.copy_files_to_target none exPartialFS).2.1.files =
      [("g1", exPartialRec)] :=
  claim2_first_failure_aborts exPartialPkg none exPartialFS "tgt" "tmp"
    ["tmp/g1"] "tmp/g2" [] [("g1", exPartialRec)] exPartialFS1
    .CorruptPackage rfl rfl rfl rfl (Or.inl rfl)

/-- C8: when two staging entries yield records with the same identifier
and both are processed successfully, the loop reports no error and the
table keeps the later-inserted record. -/
theorem claim8_duplicate_guid_last_wins (target e1 e2 : String)
    (tbl : List (String × UnityAssetFile)) (fs : FS)
    (a1 a2 : UnityAssetFile)
    (h1 : UnityAssetFile.fromPath fs e1 = .ok a1)
    (h2 : (a1.copy_asset target fs).1 = .ok ())
    (h3 : UnityAssetFile.fromPath ((a1.copy_asset target fs).2.2) e2 = .ok a2)
    (h4 : (a2.copy_asset target ((a1.copy_asset target fs).2.2)).1 = .ok ())
    (h5 : a2.guid = a1.guid) :
    (copyLoop target [e1, e2] tbl fs).1 = .ok () ∧
    hmGet ((copyLoop target [e1, e2] tbl fs).2.1) a1.guid = some a2 := by
  have ea1 : a1.copy_asset target fs =
      (.ok (), a1, (a1.copy_asset target fs).2.2) := by
    have e0 : a1.copy_asset target fs =
        ((a1.copy_asset target fs).1, (a1.copy_asset target fs).2.1,
          (a1.copy_asset target fs).2.2) := rfl
    rw [h2, copy_asset_keeps_record] at e0
    exact e0
  have ea2 : a2.copy_asset target ((a1.copy_asset target fs).2.2) =
      (.ok (), a2,
        (a2.copy_asset target ((a1.copy_asset target fs).2.2)).2.2) := by
    have e0 : a2.copy_asset target ((a1.copy_asset target fs).2.2) =
        ((a2.copy_asset target ((a1.copy_asset target fs).2.2)).1,
          (a2.copy_asset target ((a1.copy_asset target fs).2.2)).2.1,
          (a2.copy_asset target ((a1.copy_asset target fs).2.2)).2.2) := rfl
    rw [h4, copy_asset_keeps_record] at e0
    exact e0
  have hrun : copyLoop target [e1, e2] tbl fs =
      (.ok (), hmInsert (hmInsert tbl a1.guid a1) a2.guid a2,
        (a2.copy_asset target ((a1.copy_asset target fs).2.2)).2.2) := by
    rw [copyLoop, h1]
    dsimp only
    rw [ea1]
    dsimp only
    rw [copyLoop, h3]
    dsimp only
    rw [ea2]
    dsimp only
    rw [copyLoop]
  rw [hrun]
  refine ⟨rfl, ?_⟩
  rw [h5]
  exact hmGet_hmInsert_self _ _ _

/-- A staging filesystem holding two complete entries whose directories
share the final segment gd, hence the same identifier (fixture). -/
def exDupFS : FS :=
  { files := [("s1/gd/pathname", "f1.txt"), ("s1/gd/asset.meta", "m1"),
              ("s1/gd/asset", "p1"),
              ("s2/gd/pathname", "f2.txt"), ("s2/gd/asset.meta", "m2"),
              ("s2/gd/asset", "p2")],
    dirs := ["tgt"], createFails := [], dirList := [] }

/-- The record of the first duplicate entry (fixture). -/
def exDupRec1 : UnityAssetFile :=
  { guid := "gd", asset := "s1/gd/asset", target := "f1.txt",
    meta := "s1/gd/asset.meta", is_folder := false }

/-- The record of the second duplicate entry (fixture). -/
def exDupRec2 : UnityAssetFile :=
  { guid := "gd", asset := "s2/gd/asset", target := "f2.txt",
    meta := "s2/gd/asset.meta", is_folder := false }

theorem claim8_witness :
    (copyLoop "tgt" ["s1/gd", "s2/gd"] [] exDupFS).1 = .ok () ∧
    hmGet ((copyLoop "tgt" ["s1/gd", "s2/gd"] [] exDupFS).2.1) "gd" =
      some exDupRec2 :=
  claim8_duplicate_guid_last_wins "tgt" "s1/gd" "s2/gd" [] exDupFS
    exDupRec1 exDupRec2 rfl rfl rfl rfl rfl

/-- A package with no target or staging override (fixture). -/
def exDefaultPkg : UnityPackage :=
  { path := "file.unitypackage", target_path := none,
    temp_directory := none, files := [] }

theorem claim7_witness :
    exDefaultPkg.get_tmp_dir (some "wd") = .ok "wd/tmp" ∧
    exDefaultPkg.get_tmp_dir none = .error .WorkingDirectoryError ∧
    exDefaultPkg.get_target_dir (some "wd") = .ok "wd/file" ∧
    exDefaultPkg.get_target_dir none = .error .WorkingDirectoryError :=
  have h := claim7_default_directories exDefaultPkg "wd" rfl rfl
  ⟨h.1, h.2.1, h.2.2.1 "file" rfl, h.2.2.2 "file" rfl⟩

theorem claim10_witness :
    UnityPackage.new exGoodFS none "tmp/g1/asset" none none =
      .ok { path := "tmp/g1/asset", target_path := none,
            temp_directory := none, files := [] } ∧
    UnityPackage.new exGoodFS (some "wd") "pkg.unitypackage" none none =
      .ok { path := "wd/pkg.unitypackage", target_path := none,
            temp_directory := none, files := [] } ∧
    UnityPackage.new exGoodFS none "pkg.unitypackage" none none =
      .error .WorkingDirectoryError :=
  ⟨(claim10_new_path_resolution exGoodFS none "tmp/g1/asset" none none).1 rfl,
   (claim10_new_path_resolution exGoodFS (some "wd") "pkg.unitypackage" none
     none).2.1 "wd" rfl rfl,
   (claim10_new_path_resolution exGoodFS none "pkg.unitypackage" none
     none).2.2 rfl rfl⟩
